import Mathlib

/-!
Verification of the after-school lesson booking backend
(`src/index.old.js` and `src/index.js`).

The development embeds the request handlers of the Express application as
pure Lean functions over an explicit store state.  The MongoDB driver is an
external collaborator; its operations used by the code (`find`, `findOne`,
`insertOne`, `updateOne`, `sort`, `ObjectId` construction) are modelled on a
list-based store, and `ObjectId` values are modelled as strings together with
a validity predicate (`new ObjectId(s)` throws `BSONTypeError` exactly when
the string is not a valid key).
-/

namespace AfterSchool

/-- Lesson document of the `lessons` collection: store key `_id` (modelled as
the string `id`), `subject`, `location`, numeric `price` and numeric
`spaces` (remaining seats). -/
structure Lesson where
  id : String
  subject : String
  location : String
  price : Int
  spaces : Int
  deriving DecidableEq

/-- Line item of an order: the `lessons` array entries `{id, quantity}`
posted to `/orders` (field `lesson.id` references a lesson document). -/
structure OrderItem where
  id : String
  quantity : Int
  deriving DecidableEq

/-- Order document as persisted by `POST /orders`: the driver-assigned `_id`
(modelled as `oid`), the validated payload fields, and the two fields the
handler stamps before `insertOne` (`createdAt` and `orderId`). -/
structure OrderDoc where
  oid : String
  name : String
  phone : String
  lessons : List OrderItem
  createdAt : Int
  orderId : String
  deriving DecidableEq

/-- State of the document store: the `lessons` and `orders` collections. -/
structure Store where
  lessons : List Lesson
  orders : List OrderDoc
  deriving DecidableEq

/-- Incoming `POST /orders` body.  `express.json()` delivers an untyped
object; the handler reads `name`, `phone` and `lessons`, each possibly
absent (`none`). -/
structure OrderPayload where
  name : Option String
  phone : Option String
  lessons : Option (List OrderItem)
  deriving DecidableEq

/-- Incoming `PUT /lessons/:id` body: a partial lesson, one optional entry
per updatable field.  `Object.keys(updateData).length === 0` corresponds to
all fields absent. -/
structure UpdatePayload where
  subject : Option String
  location : Option String
  price : Option Int
  spaces : Option Int
  deriving DecidableEq

/-- JSON response bodies produced by the handlers, one constructor per
distinct body shape.  `orderCreated oid num` stands for
`{success: true, message, orderId: oid, orderNumber: num}`;
`lessonUpdated n` stands for `{success: true, message, modifiedCount: n}`. -/
inductive Body where
  | missingFields
  | orderCreated (orderId : String) (orderNumber : String)
  | noUpdateData
  | invalidId
  | lessonNotFound (id : String)
  | noChanges (lessonId : String)
  | lessonUpdated (modifiedCount : Nat)
  | lessonList (ls : List Lesson)
  | orderList (os : List OrderDoc)
  | searchFailed
  deriving DecidableEq

/-- An HTTP response: status code plus JSON body. -/
structure HttpResp where
  status : Nat
  body : Body
  deriving DecidableEq

/-- Errors thrown by the modelled JavaScript fragments: a `ReferenceError`
on reading an undeclared identifier, and the driver's `BSONTypeError` from
`new ObjectId` on an invalid key string. -/
inductive JsErr where
  | referenceError (name : String)
  | bsonTypeError
  deriving DecidableEq

/-- JavaScript truthiness of an optional string field: `undefined` and the
empty string are falsy, every other string is truthy. -/
def jsFalsyStr : Option String → Bool
  | none => true
  | some s => s.isEmpty

/-- Hexadecimal digit test, for ObjectId key strings. -/
def isHexChar (c : Char) : Bool :=
  c.isDigit || ('a' ≤ c && c ≤ 'f') || ('A' ≤ c && c ≤ 'F')

/-- Valid ObjectId key strings: 24 hexadecimal characters.
`new ObjectId(s)` succeeds exactly on these and throws `BSONTypeError`
otherwise. -/
def isValidObjectId (s : String) : Bool :=
  s.length == 24 && s.toList.all isHexChar

/-- Model of `new ObjectId()`: the driver mints a fresh unique id from a
generator state `n`; successive states yield distinct id strings (modelled
injectively via the string length). -/
def genId (n : Nat) : String :=
  String.mk (List.replicate (n + 1) 'b')

/-- Model of `findOne({_id})` / the filter `{_id: new ObjectId(id)}` on the
`lessons` collection: the first document whose key equals `id`. -/
def findLesson (store : Store) (id : String) : Option Lesson :=
  store.lessons.find? (fun l => l.id == id)

/-- Model of `updateOne({_id}, {$set: ...})`'s write on the `lessons` list:
replace the first document whose key is `id` (updateOne touches a single
document). -/
def setLessonFirst (id : String) (l2 : Lesson) : List Lesson → List Lesson
  | [] => []
  | l :: rest => if l.id == id then l2 :: rest else l :: setLessonFirst id l2 rest

/-- Seat reconciliation, one line item, as written in `src/index.old.js`
lines 298-325.  `new ObjectId(lesson.id)` may throw `BSONTypeError`; a
missing lesson is skipped (`continue`); otherwise line 310 assigns the
undeclared global `ewSpaces` (the statement reads
`ewSpaces = lessonInDb.spaces - lesson.quantityconst`), so line 313's read
of `newSpaces` throws `ReferenceError` before any write happens. -/
def updateItemOld (store : Store) (item : OrderItem) : Except JsErr Store :=
  if isValidObjectId item.id then
    match findLesson store item.id with
    | none => .ok store
    | some _ => .error (.referenceError "newSpaces")
  else .error .bsonTypeError

/-- One iteration of the reconciliation loop of `src/index.old.js`: the
per-item `try/catch` logs the error and keeps the store unchanged. -/
def stepOld (store : Store) (item : OrderItem) : Store :=
  match updateItemOld store item with
  | .ok s2 => s2
  | .error _ => store

/-- `updateLessonSpaces` of `src/index.old.js` (lines 289-334): the loop
over the ordered line items, each under its own `try/catch`. -/
def updateLessonSpacesOld (store : Store) (items : List OrderItem) : Store :=
  items.foldl stepOld store

/-- Modelled from the spec: `src/index.js` calls `updateLessonSpaces` but
the file does not contain its definition, so the reconciliation step is
taken from spec section 4.3 — look up the lesson by reference and skip if
absent, compute `updatedSpaces = max(0, currentSpaces - quantity)`, and
write it back; malformed references fail per line. -/
def updateItemNew (store : Store) (item : OrderItem) : Except JsErr Store :=
  if isValidObjectId item.id then
    match findLesson store item.id with
    | none => .ok store
    | some l =>
        .ok { store with
              lessons := setLessonFirst item.id
                { l with spaces := max 0 (l.spaces - item.quantity) } store.lessons }
  else .error .bsonTypeError

/-- Modelled from the spec: per-line failures are caught and logged only
(spec section 4.3). -/
def stepNew (store : Store) (item : OrderItem) : Store :=
  match updateItemNew store item with
  | .ok s2 => s2
  | .error _ => store

/-- Modelled from the spec: `updateLessonSpaces` as invoked by
`src/index.js` — line items processed sequentially and independently. -/
def updateLessonSpacesNew (store : Store) (items : List OrderItem) : Store :=
  items.foldl stepNew store

/-- Shared shape of the `POST /orders` handlers of `src/index.old.js`
(lines 164-216) and `src/index.js` (lines 131-176), which are line for line
identical up to which `updateLessonSpaces` is in scope (passed here as
`recon`).  `g` is the ObjectId generator state and `now` the clock reading:
the handler stamps `createdAt = now` and `orderId = new ObjectId(g)`, then
`insertOne` assigns `_id` from the next generator state. -/
def postOrdersWith (recon : Store → List OrderItem → Store)
    (g : Nat) (now : Int) (payload : OrderPayload) (store : Store) :
    HttpResp × Store :=
  if jsFalsyStr payload.name || jsFalsyStr payload.phone || payload.lessons.isNone then
    (⟨400, .missingFields⟩, store)
  else
    let items := payload.lessons.getD []
    let doc : OrderDoc :=
      { oid := genId (g + 1)
        name := payload.name.getD ""
        phone := payload.phone.getD ""
        lessons := items
        createdAt := now
        orderId := genId g }
    let store1 : Store := { store with orders := store.orders ++ [doc] }
    let store2 := recon store1 items
    (⟨201, .orderCreated (genId (g + 1)) (genId g)⟩, store2)

/-- The `POST /orders` handler of `src/index.old.js`. -/
def postOrdersOld (g : Nat) (now : Int) (payload : OrderPayload) (store : Store) :
    HttpResp × Store :=
  postOrdersWith updateLessonSpacesOld g now payload store

/-- The `POST /orders` handler of `src/index.js` (reconciliation modelled
from the spec, see `updateLessonSpacesNew`). -/
def postOrdersNew (g : Nat) (now : Int) (payload : OrderPayload) (store : Store) :
    HttpResp × Store :=
  postOrdersWith updateLessonSpacesNew g now payload store

/-- Emptiness test of the `PUT` body:
`!updateData || Object.keys(updateData).length === 0`. -/
def UpdatePayload.isEmptyBody (u : UpdatePayload) : Bool :=
  u.subject.isNone && u.location.isNone && u.price.isNone && u.spaces.isNone

/-- Model of `{$set: updateData}` applied to one lesson document: each
field present in the payload replaces the stored value. -/
def applySet (l : Lesson) (u : UpdatePayload) : Lesson :=
  { l with
    subject := u.subject.getD l.subject
    location := u.location.getD l.location
    price := u.price.getD l.price
    spaces := u.spaces.getD l.spaces }

/-- The `PUT /lessons/:id` handler, identical in `src/index.old.js`
(lines 219-286) and `src/index.js` (lines 178-245): empty body check first,
then `new ObjectId(lessonId)` (whose `BSONTypeError` the catch block maps to
the 400 invalid-id response), then `updateOne`; `matchedCount === 0` yields
404, `modifiedCount === 0` yields the distinguished no-changes 200 response,
otherwise the success response with the modified count. -/
def putLessonById (lessonId : String) (u : UpdatePayload) (store : Store) :
    HttpResp × Store :=
  if u.isEmptyBody then
    (⟨400, .noUpdateData⟩, store)
  else if isValidObjectId lessonId then
    match findLesson store lessonId with
    | none => (⟨404, .lessonNotFound lessonId⟩, store)
    | some l =>
        if applySet l u = l then
          (⟨200, .noChanges lessonId⟩, store)
        else
          (⟨200, .lessonUpdated 1⟩,
            { store with lessons := setLessonFirst lessonId (applySet l u) store.lessons })
  else (⟨400, .invalidId⟩, store)

/-- Regular-expression tokens for the fragment of PCRE the search model
covers: literal characters, `.` (any character), `^` (start anchor) and `$`
(end anchor). -/
inductive RTok where
  | lit (c : Char)
  | dot
  | caret
  | dollar
  deriving DecidableEq

/-- Regex metacharacters outside the modelled fragment.  A term containing
one of these is outside the model and is routed to the query-error branch
of the search handler. -/
def metaChars : List Char :=
  ['\\', '|', '?', '*', '+', '(', ')', '[', ']', '\x7b', '\x7d']

/-- Tokenize one character of the search term as the driver's regex engine
reads it. -/
def lexChar (c : Char) : Option RTok :=
  if c = '.' then some .dot
  else if c = '^' then some .caret
  else if c = '$' then some .dollar
  else if c ∈ metaChars then none
  else some (.lit c)

/-- Tokenize a character list, failing on the first unmodelled
metacharacter. -/
def lexList : List Char → Option (List RTok)
  | [] => some []
  | c :: cs =>
      match lexChar c, lexList cs with
      | some t, some ts => some (t :: ts)
      | _, _ => none

/-- Tokenize a search term string. -/
def lexRegex (s : String) : Option (List RTok) :=
  lexList s.toList

/-- Match a token sequence against the text starting at the current
position; `atStart` records whether that position is the start of the
whole input (for `^`).  Literal comparison is case-insensitive, modelling
the `i` regex option. -/
def matchHere : List RTok → List Char → Bool → Bool
  | [], _, _ => true
  | .caret :: rest, cs, atStart => atStart && matchHere rest cs atStart
  | .dollar :: rest, cs, atStart => cs.isEmpty && matchHere rest cs atStart
  | .dot :: rest, cs, _ =>
      match cs with
      | [] => false
      | _ :: cs2 => matchHere rest cs2 false
  | .lit c :: rest, cs, _ =>
      match cs with
      | [] => false
      | d :: cs2 => (c.toLower == d.toLower) && matchHere rest cs2 false

/-- Unanchored regex search: try to match at the current position, else
advance one character (the find-anywhere semantics of `$regex` and
`$regexMatch`). -/
def regexSearch (toks : List RTok) : List Char → Bool → Bool
  | [], atStart => matchHere toks [] atStart
  | c :: cs, atStart => matchHere toks (c :: cs) atStart || regexSearch toks cs false

/-- Whether the regex given by `toks` matches somewhere in `s`. -/
def regexFind (toks : List RTok) (s : String) : Bool :=
  regexSearch toks s.toList true

/-- The four searchable projections of a lesson, in the order of the `$or`
array: `subject`, `location`, `$toString` of `price`, `$toString` of
`spaces`. -/
def lessonFields (l : Lesson) : List String :=
  [l.subject, l.location, toString l.price, toString l.spaces]

/-- Whether a lesson satisfies the `$or` search filter for the given
tokenized term. -/
def lessonRegexMatch (toks : List RTok) (l : Lesson) : Bool :=
  (lessonFields l).any (fun f => regexFind toks f)

/-- Model of `!searchTerm.trim()`: the term is empty or all whitespace. -/
def isBlank (s : String) : Bool :=
  s.toList.all Char.isWhitespace

/-- The `GET /search` handler, identical in `src/index.old.js`
(lines 121-161) and `src/index.js` (lines 93-129).  `term` is the optional
`query` parameter (`req.query.query || ''`).  A blank term returns all
lessons; otherwise the `$or` regex filter is applied.  Terms containing
regex metacharacters outside the modelled fragment are routed to the
query-error branch (the catch block's 500). -/
def searchHandler (term : Option String) (store : Store) : HttpResp × Store :=
  let searchTerm := term.getD ""
  if isBlank searchTerm then
    (⟨200, .lessonList store.lessons⟩, store)
  else
    match lexRegex searchTerm with
    | some toks =>
        (⟨200, .lessonList (store.lessons.filter (fun l => lessonRegexMatch toks l))⟩, store)
    | none => (⟨500, .searchFailed⟩, store)

/-- The relation `.sort({createdAt: -1})` orders by: later (or equal)
creation timestamp first. -/
def ordGE (a b : OrderDoc) : Prop :=
  b.createdAt ≤ a.createdAt

instance : DecidableRel ordGE :=
  fun a b => inferInstanceAs (Decidable (b.createdAt ≤ a.createdAt))

instance : IsTotal OrderDoc ordGE :=
  ⟨fun a b => le_total b.createdAt a.createdAt⟩

instance : IsTrans OrderDoc ordGE :=
  ⟨fun _ _ _ h1 h2 => le_trans h2 h1⟩

/-- The `GET /orders` handler of `src/index.old.js` (lines 337-362): all
order documents, sorted by `createdAt` descending. -/
def getOrders (store : Store) : HttpResp × Store :=
  (⟨200, .orderList (store.orders.insertionSort ordGE)⟩, store)

/-- Project the lesson list out of a response body (for stating search
results). -/
def lessonsOf (r : HttpResp) : List Lesson :=
  match r.body with
  | .lessonList ls => ls
  | _ => []

/-- Project the order list out of a response body. -/
def ordersOf (r : HttpResp) : List OrderDoc :=
  match r.body with
  | .orderList os => os
  | _ => []

/-- Spec-side notion from the claim wording: `t` occurs as a contiguous
substring of the character list, i.e. it is a prefix of some suffix. -/
def containsSub (t : List Char) : List Char → Bool
  | [] => t.isPrefixOf []
  | c :: cs => t.isPrefixOf (c :: cs) || containsSub t cs

/-- Spec-side notion from the claim wording: `needle` is a case-insensitive
substring of `hay`. -/
def strContainsCI (needle hay : String) : Bool :=
  containsSub (needle.toList.map Char.toLower) (hay.toList.map Char.toLower)

/-- Concrete lesson used for the search claims. -/
def mathLesson : Lesson :=
  ⟨"aaaaaaaaaaaaaaaaaaaaaaaa", "Math", "Hendon", 100, 5⟩

/-- Concrete one-lesson store used for the search claims. -/
def mathStore : Store :=
  ⟨[mathLesson], []⟩

/-- Concrete lesson with three remaining seats, for the clamping claim. -/
def c1Lesson : Lesson :=
  ⟨"abcdefabcdefabcdefabcdef", "Math", "Hendon", 100, 3⟩

/-- Store holding just `c1Lesson`. -/
def c1Store : Store :=
  ⟨[c1Lesson], []⟩

/-- Well-formed order for five seats of `c1Lesson`. -/
def c1Payload : OrderPayload :=
  ⟨some "Kirsty", some "07123456789", some [⟨"abcdefabcdefabcdefabcdef", 5⟩]⟩

/-- Line item referencing a lesson absent from the store. -/
def c2Item : OrderItem :=
  ⟨"0123456789abcdef01234567", 2⟩

/-- Empty store for the reconciliation-isolation witness. -/
def c2Store : Store :=
  ⟨[], []⟩

/-- Valid order payload whose single line item references an absent
lesson. -/
def c2Payload : OrderPayload :=
  ⟨some "Noor", some "07999999999", some [c2Item]⟩

/-- Order payload with the `phone` field absent. -/
def c3Payload : OrderPayload :=
  ⟨some "Kirsty", none, some []⟩

/-- Empty store for the intake claims. -/
def c3Store : Store :=
  ⟨[], []⟩

/-- Valid order payload for the successful-intake witness. -/
def c4Payload : OrderPayload :=
  ⟨some "Kirsty", some "07123456789", some [⟨"feedfacefeedfacefeedface", 1⟩]⟩

/-- Non-empty partial update used for the PUT outcome witness. -/
def c7Update : UpdatePayload :=
  ⟨some "Maths", none, none, none⟩

/-- Empty store for the PUT outcome witness. -/
def c7Store : Store :=
  ⟨[], []⟩

/-- Two order documents sharing the same creation timestamp. -/
def dupO1 : OrderDoc :=
  ⟨"111111111111111111111111", "A", "07000000001", [], 5, "n1"⟩

/-- Second order document with the same timestamp as `dupO1`. -/
def dupO2 : OrderDoc :=
  ⟨"222222222222222222222222", "B", "07000000002", [], 5, "n2"⟩

/-- Store whose two orders carry equal timestamps. -/
def dupStore : Store :=
  ⟨[], [dupO1, dupO2]⟩

/-- Concrete lesson for the old/new handler comparison. -/
def c9Lesson : Lesson :=
  ⟨"cccccccccccccccccccccccc", "Science", "Colindale", 90, 3⟩

/-- Store holding just `c9Lesson`. -/
def c9Store : Store :=
  ⟨[c9Lesson], []⟩

/-- Valid order for two seats of `c9Lesson`. -/
def c9Payload : OrderPayload :=
  ⟨some "Amal", some "07000000000", some [⟨"cccccccccccccccccccccccc", 2⟩]⟩

/-- Fully empty `PUT` body. -/
def c10Update : UpdatePayload :=
  ⟨none, none, none, none⟩

/-- Store with one lesson, for the empty-body PUT witness. -/
def c10Store : Store :=
  ⟨[⟨"ffffffffffffffffffffffff", "Art", "Barnet", 50, 5⟩], []⟩

/-- One reconciliation iteration of `src/index.old.js` never changes the
store: an invalid reference or a present lesson raises a caught error, an
absent lesson is skipped. -/
theorem stepOld_eq (store : Store) (item : OrderItem) : stepOld store item = store := by
  cases hv : isValidObjectId item.id
  · simp [stepOld, updateItemOld, hv]
  · cases hfind : findLesson store item.id <;> simp [stepOld, updateItemOld, hv, hfind]

/-- The whole `updateLessonSpaces` loop of `src/index.old.js` is the
identity on the store. -/
theorem updateLessonSpacesOld_eq (items : List OrderItem) (store : Store) :
    updateLessonSpacesOld store items = store := by
  induction items generalizing store with
  | nil => rfl
  | cons x xs ih =>
      simp only [updateLessonSpacesOld, List.foldl_cons, stepOld_eq] at ih ⊢
      exact ih store

/-- Successive generator states mint distinct id strings. -/
theorem genId_step_ne (n : Nat) : genId n ≠ genId (n + 1) := by
  intro h
  have hdata : List.replicate (n + 1) 'b' = List.replicate (n + 1 + 1) 'b' := by
    simpa [genId] using congrArg String.data h
  have hlen := congrArg List.length hdata
  simp at hlen

/-- A literal-only token list matches at a position exactly when its
lowered characters are a prefix of the lowered remaining input. -/
theorem matchHere_lit : ∀ (t : List Char) (cs : List Char) (b : Bool),
    matchHere (t.map RTok.lit) cs b
      = (t.map Char.toLower).isPrefixOf (cs.map Char.toLower)
  | [], cs, b => by simp [matchHere, List.isPrefixOf]
  | _ :: _, [], _ => by simp [matchHere, List.isPrefixOf]
  | c :: t, d :: cs, b => by
      simp [matchHere, List.isPrefixOf, matchHere_lit t cs false]

/-- Unanchored search with a literal-only token list is exactly
case-insensitive substring containment. -/
theorem regexSearch_lit (t : List Char) : ∀ (cs : List Char) (b : Bool),
    regexSearch (t.map RTok.lit) cs b
      = containsSub (t.map Char.toLower) (cs.map Char.toLower)
  | [], b => by simp [regexSearch, containsSub, matchHere_lit]
  | c :: cs, b => by
      simp [regexSearch, containsSub, matchHere_lit, regexSearch_lit t cs false]

/-- A term all of whose characters lex as literals lexes to the literal
token list. -/
theorem lexList_plain : ∀ (cs : List Char),
    (∀ c ∈ cs, lexChar c = some (RTok.lit c)) →
    lexList cs = some (cs.map RTok.lit)
  | [], _ => rfl
  | c :: cs, h => by
      have hc := h c (List.mem_cons_self c cs)
      have hrest := lexList_plain cs (fun d hd => h d (List.mem_cons_of_mem c hd))
      simp [lexList, hc, hrest]

/-- C1: posting a well-formed order of quantity 5 for a lesson with
`spaces = 3` is reported created (201), but the lesson's `spaces` field is
left at 3, not clamped to 0: line 310 of `src/index.old.js` assigns the
misspelled `ewSpaces`, so the clamp on line 313 reads the undefined
`newSpaces`, throws, and no write ever happens. -/
theorem order_clamp_failing_eval :
    (postOrdersOld 7 1000 c1Payload c1Store).fst.status = 201
    ∧ findLesson (postOrdersOld 7 1000 c1Payload c1Store).snd "abcdefabcdefabcdefabcdef"
        = some c1Lesson
    ∧ c1Lesson.spaces = 3 := by decide

/-- C2: seat reconciliation in `src/index.old.js` processes line items
independently — splitting the item list splits the processing, an absent
lesson is skipped without an error, and a validated order is answered 201
whatever reconciliation does. -/
theorem reconciliation_per_item_isolation
    (store : Store) (items1 items2 : List OrderItem) (item : OrderItem)
    (g : Nat) (now : Int) (payload : OrderPayload)
    (hid : isValidObjectId item.id = true)
    (habs : findLesson store item.id = none)
    (hval : (jsFalsyStr payload.name || jsFalsyStr payload.phone
        || payload.lessons.isNone) = false) :
    updateLessonSpacesOld store (items1 ++ items2)
      = updateLessonSpacesOld (updateLessonSpacesOld store items1) items2
    ∧ updateItemOld store item = Except.ok store
    ∧ (postOrdersOld g now payload store).fst.status = 201 := by
  refine ⟨?_, ?_, ?_⟩
  · simp [updateLessonSpacesOld, List.foldl_append]
  · simp [updateItemOld, hid, habs]
  · simp [postOrdersOld, postOrdersWith, hval]

/-- C2 witness at a concrete store, item and payload. -/
theorem reconciliation_per_item_isolation_witness :
    updateLessonSpacesOld c2Store ([c2Item] ++ [c2Item])
      = updateLessonSpacesOld (updateLessonSpacesOld c2Store [c2Item]) [c2Item]
    ∧ updateItemOld c2Store c2Item = Except.ok c2Store
    ∧ (postOrdersOld 0 0 c2Payload c2Store).fst.status = 201 :=
  reconciliation_per_item_isolation c2Store [c2Item] [c2Item] c2Item 0 0 c2Payload
    (by decide) (by decide) (by decide)

/-- C3: an order payload whose `name` or `phone` is missing or empty, or
whose `lessons` field is absent, is rejected with the 400
missing-required-fields error by both handlers, and the store is left
untouched. -/
theorem order_validation_rejects
    (g : Nat) (now : Int) (payload : OrderPayload) (store : Store)
    (hval : (jsFalsyStr payload.name || jsFalsyStr payload.phone
        || payload.lessons.isNone) = true) :
    postOrdersOld g now payload store = (⟨400, Body.missingFields⟩, store)
    ∧ postOrdersNew g now payload store = (⟨400, Body.missingFields⟩, store) := by
  constructor <;> simp [postOrdersOld, postOrdersNew, postOrdersWith, hval]

/-- C3 witness: a payload missing `phone` is rejected and nothing is
persisted. -/
theorem order_validation_rejects_witness :
    postOrdersOld 0 0 c3Payload c3Store = (⟨400, Body.missingFields⟩, c3Store)
    ∧ postOrdersNew 0 0 c3Payload c3Store = (⟨400, Body.missingFields⟩, c3Store) :=
  order_validation_rejects 0 0 c3Payload c3Store (by decide)

/-- C4: a validated order is stamped with the clock reading and a freshly
minted string order identifier, persisted with those fields, and answered
201 carrying the store-assigned document id and the generated order number,
which are distinct. -/
theorem order_creation_success
    (g : Nat) (now : Int) (payload : OrderPayload) (store : Store)
    (hval : (jsFalsyStr payload.name || jsFalsyStr payload.phone
        || payload.lessons.isNone) = false) :
    (postOrdersOld g now payload store).fst
      = ⟨201, Body.orderCreated (genId (g + 1)) (genId g)⟩
    ∧ (postOrdersOld g now payload store).snd.orders
      = store.orders ++ [⟨genId (g + 1), payload.name.getD "", payload.phone.getD "",
          payload.lessons.getD [], now, genId g⟩]
    ∧ genId g ≠ genId (g + 1) := by
  refine ⟨?_, ?_, genId_step_ne g⟩
  · simp [postOrdersOld, postOrdersWith, hval]
  · simp [postOrdersOld, postOrdersWith, hval, updateLessonSpacesOld_eq]

/-- C4 witness at a concrete payload and store. -/
theorem order_creation_success_witness :
    (postOrdersOld 3 42 c4Payload c3Store).fst
      = ⟨201, Body.orderCreated (genId 4) (genId 3)⟩
    ∧ (postOrdersOld 3 42 c4Payload c3Store).snd.orders
      = c3Store.orders ++ [⟨genId 4, "Kirsty", "07123456789",
          [⟨"feedfacefeedfacefeedface", 1⟩], 42, genId 3⟩]
    ∧ genId 3 ≠ genId 4 :=
  order_creation_success 3 42 c4Payload c3Store (by decide)

/-- C5 counterexample: the term `"."` places `mathLesson` in the search
result although it is not a substring of any of its four searchable fields
— the term is applied as a regular expression, not as a literal
substring. -/
theorem search_substring_claim_cex :
    mathLesson ∈ lessonsOf ((searchHandler (some ".") mathStore).fst)
    ∧ (lessonFields mathLesson).any (fun f => strContainsCI "." f) = false := by
  decide

/-- C5 (amended): for a non-blank term inside the modelled regex fragment,
a lesson is in the search result exactly when the term matches one of its
four searchable fields as a case-insensitive regular expression; for terms
of plain characters only this coincides with case-insensitive substring
containment. -/
theorem search_regex_characterisation (term : String) (store : Store) (l : Lesson)
    (toks : List RTok)
    (hne : isBlank term = false) (hlex : lexRegex term = some toks) :
    (l ∈ lessonsOf ((searchHandler (some term) store).fst) ↔
      l ∈ store.lessons ∧ lessonRegexMatch toks l = true)
    ∧ ((∀ c ∈ term.toList, lexChar c = some (RTok.lit c)) →
      lessonRegexMatch toks l
        = (lessonFields l).any (fun f => strContainsCI term f)) := by
  constructor
  · simp [searchHandler, hne, hlex, lessonsOf, List.mem_filter]
  · intro hplain
    have htoks : toks = term.toList.map RTok.lit := by
      have hl := lexList_plain term.toList hplain
      rw [lexRegex, hl] at hlex
      exact (Option.some_inj.mp hlex).symm
    subst htoks
    simp only [lessonRegexMatch, regexFind, strContainsCI]
    simp [regexSearch_lit]

/-- C5 witness: the amended characterisation at the term `"ma"` and the
lesson with subject `"Math"`. -/
theorem search_regex_characterisation_witness :
    (mathLesson ∈ lessonsOf ((searchHandler (some "ma") mathStore).fst) ↔
      mathLesson ∈ mathStore.lessons
        ∧ lessonRegexMatch [RTok.lit 'm', RTok.lit 'a'] mathLesson = true)
    ∧ lessonRegexMatch [RTok.lit 'm', RTok.lit 'a'] mathLesson
        = (lessonFields mathLesson).any (fun f => strContainsCI "ma" f) :=
  ⟨(search_regex_characterisation "ma" mathStore mathLesson
      [RTok.lit 'm', RTok.lit 'a'] (by decide) (by decide)).1,
   (search_regex_characterisation "ma" mathStore mathLesson
      [RTok.lit 'm', RTok.lit 'a'] (by decide) (by decide)).2 (by decide)⟩

/-- C6: every `/search` call leaves the store untouched, and a blank or
absent term returns the full lesson set unfiltered. -/
theorem search_blank_and_readonly (store : Store) (t : Option String) :
    (searchHandler t store).snd = store
    ∧ (searchHandler none store).fst = ⟨200, Body.lessonList store.lessons⟩
    ∧ (searchHandler (some "") store).fst = ⟨200, Body.lessonList store.lessons⟩ := by
  have hblank : isBlank "" = true := by decide
  refine ⟨?_, by simp [searchHandler, hblank], by simp [searchHandler, hblank]⟩
  unfold searchHandler
  dsimp only
  split
  · rfl
  · split <;> rfl

/-- C7: the four distinguished `PUT /lessons/:id` outcomes — 400 on an
empty body, 400 invalid-id on an unparseable identifier, 404 when no lesson
matches, the no-changes 200 when the matched document already equals its
update — plus the plain success response otherwise, and the pairwise
distinctness of the distinguished responses. -/
theorem put_lesson_outcomes (store : Store) (id : String) (u : UpdatePayload) :
    (u.isEmptyBody = true → putLessonById id u store = (⟨400, Body.noUpdateData⟩, store))
    ∧ (u.isEmptyBody = false → isValidObjectId id = false →
        putLessonById id u store = (⟨400, Body.invalidId⟩, store))
    ∧ (u.isEmptyBody = false → isValidObjectId id = true →
        findLesson store id = none →
        putLessonById id u store = (⟨404, Body.lessonNotFound id⟩, store))
    ∧ (∀ l, u.isEmptyBody = false → isValidObjectId id = true →
        findLesson store id = some l → applySet l u = l →
        putLessonById id u store = (⟨200, Body.noChanges id⟩, store))
    ∧ (∀ l, u.isEmptyBody = false → isValidObjectId id = true →
        findLesson store id = some l → ¬ applySet l u = l →
        putLessonById id u store = (⟨200, Body.lessonUpdated 1⟩,
          { store with lessons := setLessonFirst id (applySet l u) store.lessons }))
    ∧ (⟨400, Body.invalidId⟩ : HttpResp) ≠ ⟨404, Body.lessonNotFound id⟩
    ∧ (⟨400, Body.noUpdateData⟩ : HttpResp) ≠ ⟨400, Body.invalidId⟩
    ∧ (⟨200, Body.noChanges id⟩ : HttpResp) ≠ ⟨200, Body.lessonUpdated 1⟩ := by
  refine ⟨?_, ?_, ?_, ?_, ?_, by simp, by simp, by simp⟩
  · intro h; simp [putLessonById, h]
  · intro h hv; simp [putLessonById, h, hv]
  · intro h hv hf; simp [putLessonById, h, hv, hf]
  · intro l h hv hf heq; simp [putLessonById, h, hv, hf, heq]
  · intro l h hv hf hne; simp [putLessonById, h, hv, hf, hne]

/-- C7 witness: an unparseable identifier with a non-empty body is answered
with the distinguished invalid-id 400. -/
theorem put_lesson_outcomes_witness :
    putLessonById "zzz" c7Update c7Store = (⟨400, Body.invalidId⟩, c7Store) :=
  (put_lesson_outcomes c7Store "zzz" c7Update).2.1 (by decide) (by decide)

/-- C8 counterexample: with two orders sharing a creation timestamp,
`GET /orders` returns them adjacent with equal timestamps, so the strictly
descending property fails. -/
theorem orders_strict_descending_cex :
    ordersOf (getOrders dupStore).fst = [dupO1, dupO2]
    ∧ ¬ dupO2.createdAt < dupO1.createdAt := by
  refine ⟨by decide, by decide⟩

/-- C8 (amended): `GET /orders` is read-only and returns a permutation of
the full order set whose adjacent creation timestamps are non-increasing
(descending, ties allowed). -/
theorem orders_sorted_descending (store : Store) :
    (getOrders store).snd = store
    ∧ (ordersOf (getOrders store).fst).Perm store.orders
    ∧ (ordersOf (getOrders store).fst).Chain'
        (fun a b => b.createdAt ≤ a.createdAt) := by
  refine ⟨rfl, ?_, ?_⟩
  · simpa [getOrders, ordersOf] using List.perm_insertionSort ordGE store.orders
  · have h := List.sorted_insertionSort ordGE store.orders
    simpa [getOrders, ordersOf] using List.Pairwise.chain' h

/-- C9: at a concrete valid order for an existing lesson, the two
`POST /orders` handlers return the same response and persist the same order
document, but diverge on the lesson writes: `src/index.old.js` leaves the
lesson untouched (its reconciliation throws per item), while `src/index.js`
with spec-modelled reconciliation decrements the seats. -/
theorem old_new_divergence_eval :
    (postOrdersOld 0 500 c9Payload c9Store).fst
      = (postOrdersNew 0 500 c9Payload c9Store).fst
    ∧ (postOrdersOld 0 500 c9Payload c9Store).snd.orders
      = (postOrdersNew 0 500 c9Payload c9Store).snd.orders
    ∧ findLesson (postOrdersOld 0 500 c9Payload c9Store).snd
        "cccccccccccccccccccccccc" = some c9Lesson
    ∧ findLesson (postOrdersNew 0 500 c9Payload c9Store).snd
        "cccccccccccccccccccccccc" = some { c9Lesson with spaces := 1 } := by
  decide

/-- C10: an empty `PUT` body is answered with the 400 no-update-data error
before the identifier is even parsed — any identifier string, valid store
key or not — and the store is untouched. -/
theorem put_empty_body_first (id : String) (u : UpdatePayload) (store : Store)
    (h : u.isEmptyBody = true) :
    putLessonById id u store = (⟨400, Body.noUpdateData⟩, store) := by
  simp [putLessonById, h]

/-- C10 witness: the empty body is rejected even for an identifier that is
not a valid store key. -/
theorem put_empty_body_first_witness :
    putLessonById "not-an-objectid" c10Update c10Store
      = (⟨400, Body.noUpdateData⟩, c10Store) :=
  put_empty_body_first "not-an-objectid" c10Update c10Store (by decide)

end AfterSchool
